import Mathlib

/-
  Verification of the session-orchestration core of the Sunny AI meeting
  agent against its design specification.

  The Python sources are shallowly embedded: each embedded definition is
  named after (and translated from) the source function it models, with
  provider calls (browser, models, network, database) represented as
  explicit `Except String` outcomes supplied as arguments, and wall-clock
  time as natural-number seconds.
-/

set_option maxHeartbeats 1000000

namespace Sunny

/-! ## Data model (meeting_bot/recorder.py, meeting_bot/joiner.py) -/

/-- States of `meeting_bot/recorder.py::RecordingState`. -/
inductive RecordingState where
  | idle | joining | inMeeting | recording | ended | error
deriving DecidableEq, Repr

/-- Platforms of `meeting_bot/joiner.py::MeetingPlatform`. -/
inductive MeetingPlatform where
  | zoom | googleMeet | unknown
deriving DecidableEq, Repr

/-- String value of a platform, as in the Python enum values. -/
def MeetingPlatform.value : MeetingPlatform → String
  | .zoom => "zoom"
  | .googleMeet => "google_meet"
  | .unknown => "unknown"

/-- Session record of `meeting_bot/recorder.py::MeetingSession`; timestamps
and durations are seconds as naturals, `metadata` is flattened into its two
used keys. -/
structure MeetingSession where
  meeting_url : String
  platform : MeetingPlatform
  start_time : Option Nat := none
  end_time : Option Nat := none
  audio_file : Option String := none
  state : RecordingState := .idle
  error_message : Option String := none
  duration_seconds : Option Nat := none
  duration_formatted : Option String := none
deriving DecidableEq, Repr

/-! ## Enrichment result types (transcription/, advanced_features/) -/

/-- Result of `transcription/whisper_engine.py::TranscriptionResult`
(fields used by the controller). -/
structure TranscriptionResult where
  text : String
  durationSec : Nat := 0
  segmentCount : Nat := 0
deriving DecidableEq, Repr

/-- Segment of `advanced_features/diarization.py::SpeakerSegment`. -/
structure SpeakerSegment where
  speaker : String
  startSec : Nat
  endSec : Nat
  text : String := ""
deriving DecidableEq, Repr

/-- Result of `advanced_features/diarization.py::DiarizationResult`; the
dataclass defaults give the defined empty value (zero speakers). -/
structure DiarizationResult where
  segments : List SpeakerSegment := []
  num_speakers : Nat := 0
  speaker_stats : List (String × Nat) := []
deriving DecidableEq, Repr

/-- Topic of `advanced_features/topic_segmentation.py::TopicSegment`. -/
structure TopicSegment where
  title : String
  start_time : Nat
  end_time : Nat
  summary : String := ""
deriving DecidableEq, Repr

/-- Result of
`advanced_features/topic_segmentation.py::TopicSegmentationResult`. -/
structure TopicSegmentationResult where
  topics : List TopicSegment := []
  total_topics : Nat := 0
deriving DecidableEq, Repr

/-- Values of `advanced_features/sentiment.py::Sentiment`. -/
inductive Sentiment where
  | positive | neutral | negative
deriving DecidableEq, Repr

/-- Result of `advanced_features/sentiment.py::SentimentResult`; the
dataclass defaults give the defined neutral value. -/
structure SentimentResult where
  overall_sentiment : Sentiment := .neutral
  overall_confidence : Nat := 0
  conflict_detected : Bool := false
  agreement_level : Nat := 0
  key_emotional_moments : List String := []
deriving DecidableEq, Repr

/-- Item of `advanced_features/action_items.py::ActionItem`. -/
structure ActionItem where
  id : Nat := 0
  task : String
  owner : Option String := none
  deadline : Option String := none
deriving DecidableEq, Repr

/-- Result of `advanced_features/action_items.py::ActionItemResult`; the
dataclass defaults give the defined empty value (zero items). -/
structure ActionItemResult where
  items : List ActionItem := []
  total_items : Nat := 0
  items_with_owners : Nat := 0
  items_with_deadlines : Nat := 0
deriving DecidableEq, Repr

/-- Summary of `summarization/llm_pipeline.py::MeetingSummary`
(fields used by the controller). -/
structure MeetingSummary where
  executive_summary : String
  key_discussion_points : List String := []
  decisions_made : List String := []
  action_items : List ActionItem := []
deriving DecidableEq, Repr

/-- Metrics of `advanced_features/analytics.py::MeetingMetrics`
(fields used by the controller). -/
structure MeetingMetrics where
  duration_seconds : Nat := 0
  total_words : Nat := 0
  num_speakers : Nat := 0
  num_topics : Nat := 0
deriving DecidableEq, Repr

/-- Email of `advanced_features/followup_email.py::FollowupEmail`. -/
structure FollowupEmail where
  subject : String := ""
  body_text : String := ""
  body_html : String := ""
  recipients_suggested : List String := []
  action_items_included : Nat := 0
deriving DecidableEq, Repr

/-! ## Fail-soft stage wrappers

Each wrapper reproduces the control flow of the corresponding stage
method; the provider work inside its try-block is an `Except String`
argument. -/

/-- Stage `advanced_features/diarization.py::SpeakerDiarizer.diarize`:
disabled yields the empty result; with an initialized pipeline any
pyannote exception falls back to `_diarize_fallback`, which returns the
empty result; without a pipeline the fallback is used directly. -/
def SpeakerDiarizer.diarize (enabled initialized : Bool)
    (pyannote : Except String DiarizationResult) : DiarizationResult :=
  if !enabled then {}
  else if initialized then
    match pyannote with
    | .ok r => r
    | .error _ => {}
  else {}

/-- Stage `advanced_features/topic_segmentation.py::TopicSegmenter.segment_topics`:
disabled or short transcript yields the empty result; any exception in
topic identification is caught and yields the empty result. -/
def TopicSegmenter.segment_topics (enabled : Bool) (transcript : String)
    (identified : Except String (List TopicSegment)) : TopicSegmentationResult :=
  if !enabled then {}
  else if transcript.trim.length < 100 then {}
  else
    match identified with
    | .ok topics => { topics := topics, total_topics := topics.length }
    | .error _ => {}

/-- Stage `advanced_features/sentiment.py::SentimentAnalyzer.analyze`:
disabled yields the default (neutral) result; any exception is caught and
yields the default result. -/
def SentimentAnalyzer.analyze (enabled : Bool)
    (inner : Except String SentimentResult) : SentimentResult :=
  if !enabled then {}
  else
    match inner with
    | .ok r => r
    | .error _ => {}

/-- Stage `advanced_features/action_items.py::ActionItemExtractor.extract`:
disabled yields the empty result; any exception is caught and yields the
empty result. -/
def ActionItemExtractor.extract (enabled : Bool)
    (inner : Except String ActionItemResult) : ActionItemResult :=
  if !enabled then {}
  else
    match inner with
    | .ok r => r
    | .error _ => {}

/-- Stage `advanced_features/analytics.py::MeetingAnalytics.generate_metrics`:
disabled returns the default metrics immediately; otherwise the body runs
with no surrounding try-block, so an exception propagates to the caller. -/
def MeetingAnalytics.generate_metrics (enabled : Bool)
    (compute : Except String MeetingMetrics) : Except String MeetingMetrics :=
  if !enabled then .ok {} else compute

/-- Stage `advanced_features/rag_memory.py::MeetingMemory.store_meeting`:
when uninitialized it returns 0; otherwise the collection insert runs with
no surrounding try-block, so an exception propagates to the caller. -/
def MeetingMemory.store_meeting (memInitialized : Bool)
    (collectionAdd : Except String Nat) : Except String Nat :=
  if memInitialized then collectionAdd else .ok 0

/-- Stage `advanced_features/followup_email.py::FollowupEmailGenerator.generate`:
disabled yields the empty email; any exception is caught and the template
fallback `_generate_template` is returned. -/
def FollowupEmailGenerator.generate (enabled : Bool)
    (inner : Except String FollowupEmail) (template : FollowupEmail) : FollowupEmail :=
  if !enabled then {}
  else
    match inner with
    | .ok r => r
    | .error _ => template

/-! ## Controller session registry (controller.py) -/

/-- Per-session dictionary of `controller.py::SunnyAIController._sessions`
entries; `status` is the literal status string used by the controller. -/
structure SessionRec where
  id : Nat
  meeting_url : String
  recipient_email : String
  send_email : Bool
  status : String
  errorMsg : Option String := none
  meeting_session : Option MeetingSession := none
  transcript : Option TranscriptionResult := none
  diarization : Option DiarizationResult := none
  topics : Option TopicSegmentationResult := none
  sentiment : Option SentimentResult := none
  summary : Option MeetingSummary := none
  action_items : Option ActionItemResult := none
  analytics : Option MeetingMetrics := none
  pdf_path : Option String := none
  db_record_id : Option Nat := none
  followup_email : Option FollowupEmail := none
deriving DecidableEq, Repr

/-- Feature flags and provider-readiness bits read by the controller from
its configuration and component state. -/
structure FeatureConfig where
  diarization_enabled : Bool := true
  diarizer_ready : Bool := false
  topic_segmentation_enabled : Bool := true
  sentiment_enabled : Bool := true
  action_items_enabled : Bool := true
  analytics_enabled : Bool := true
  followup_enabled : Bool := true
  memory_ready : Bool := false
deriving DecidableEq, Repr

/-- Outcomes of every external provider call performed during
`controller.py::SunnyAIController._process_recording`, in pipeline order.
An `Except.error` value models the provider raising an exception. -/
structure StageBehaviors where
  audioFileExists : Bool := true
  transcribe : Except String TranscriptionResult
  diarizePyannote : Except String DiarizationResult := .ok {}
  identifyTopics : Except String (List TopicSegment) := .ok []
  sentimentInner : Except String SentimentResult := .ok {}
  summarize : Except String MeetingSummary
  actionsInner : Except String ActionItemResult := .ok {}
  analyticsCompute : Except String MeetingMetrics := .ok {}
  pdfRender : Except String String
  dbSave : Except String Nat
  memoryAdd : Except String Nat := .ok 0
  followupInner : Except String FollowupEmail := .ok {}
  followupTemplate : FollowupEmail := {}
  emailSend : Except String Unit := .ok ()
  dbUpdate : Except String Unit := .ok ()
deriving Repr

/-- Pipeline `controller.py::SunnyAIController._process_recording`: the
missing-audio check precedes the try-block; inside it, transcription,
summarization, analytics, PDF generation, database save and memory
storage propagate exceptions to the single surrounding handler (status
becomes "error"), the remaining stages absorb theirs via the wrappers
above, and an email-send failure is swallowed by its inner try-block, so
the pipeline still finishes with status "completed". -/
def SunnyAIController.process_recording (cfg : FeatureConfig)
    (b : StageBehaviors) (s0 : SessionRec) (ms : MeetingSession) : SessionRec :=
  if ms.audio_file.isNone || !b.audioFileExists then
    { s0 with status := "error", errorMsg := some "No audio file recorded" }
  else
    let s := { s0 with status := "transcribing" }
    match b.transcribe with
    | .error e => { s with status := "error", errorMsg := some e }
    | .ok tr =>
      let s := { s with transcript := some tr, status := "diarizing" }
      let diar :=
        SpeakerDiarizer.diarize cfg.diarization_enabled cfg.diarizer_ready
          b.diarizePyannote
      let s := { s with diarization := some diar, status := "segmenting_topics" }
      let topics :=
        TopicSegmenter.segment_topics cfg.topic_segmentation_enabled tr.text
          b.identifyTopics
      let s := { s with topics := some topics, status := "analyzing_sentiment" }
      let sent := SentimentAnalyzer.analyze cfg.sentiment_enabled b.sentimentInner
      let s := { s with sentiment := some sent, status := "summarizing" }
      match b.summarize with
      | .error e => { s with status := "error", errorMsg := some e }
      | .ok summ =>
        let s := { s with summary := some summ, status := "extracting_actions" }
        let acts := ActionItemExtractor.extract cfg.action_items_enabled b.actionsInner
        let s := { s with action_items := some acts, status := "generating_analytics" }
        match MeetingAnalytics.generate_metrics cfg.analytics_enabled b.analyticsCompute with
        | .error e => { s with status := "error", errorMsg := some e }
        | .ok mets =>
          let s := { s with analytics := some mets, status := "generating_pdf" }
          match b.pdfRender with
          | .error e => { s with status := "error", errorMsg := some e }
          | .ok pdf =>
            let s := { s with pdf_path := some pdf }
            match b.dbSave with
            | .error e => { s with status := "error", errorMsg := some e }
            | .ok recId =>
              let s := { s with db_record_id := some recId }
              let s :=
                if cfg.memory_ready then { s with status := "storing_memory" } else s
              match MeetingMemory.store_meeting cfg.memory_ready b.memoryAdd with
              | .error e => { s with status := "error", errorMsg := some e }
              | .ok _ =>
                let s := { s with status := "generating_followup" }
                let fup :=
                  FollowupEmailGenerator.generate cfg.followup_enabled
                    b.followupInner b.followupTemplate
                let s := { s with followup_email := some fup }
                let s :=
                  if s.send_email then { s with status := "sending_email" } else s
                match (if s.send_email then b.emailSend else .ok ()) with
                | .ok _ => { s with status := "completed" }
                | .error _ => { s with status := "completed" }

/-! ## Joiner admission polling (meeting_bot/joiner.py) -/

/-- Admission-related page state observed by the joiner at a given elapsed
time: still pending, verified in-meeting, or showing a denial text. -/
inductive AdmissionSignal where
  | pending | admitted | denied
deriving DecidableEq, Repr

/-- Poll interval hard-coded as `check_interval = 5` in
`meeting_bot/joiner.py::MeetingJoiner._wait_for_admission`. -/
def MeetingJoiner.admissionCheckInterval : Nat := 5

/-- Loop body of `meeting_bot/joiner.py::MeetingJoiner._wait_for_admission`:
while `elapsed < timeout`, sleep 5 s, add 5 to `elapsed`, then return true
on a verified admission and false on a denial text; falling out of the
loop returns false. Fuel only bounds recursion and is chosen large enough
to never run out. Returns the final `elapsed` together with the result. -/
def MeetingJoiner.wait_for_admission_loop (signal : Nat → AdmissionSignal)
    (timeout : Nat) : Nat → Nat → Nat × Bool
  | elapsed, 0 => (elapsed, false)
  | elapsed, fuel + 1 =>
    if elapsed < timeout then
      match signal (elapsed + MeetingJoiner.admissionCheckInterval) with
      | .admitted => (elapsed + MeetingJoiner.admissionCheckInterval, true)
      | .denied => (elapsed + MeetingJoiner.admissionCheckInterval, false)
      | .pending => MeetingJoiner.wait_for_admission_loop signal timeout
          (elapsed + MeetingJoiner.admissionCheckInterval) fuel
    else (elapsed, false)

/-- Entry point of `_wait_for_admission`: `elapsed` starts at 0; the fuel
`timeout + 1` exceeds the maximal number of iterations since each
iteration advances `elapsed` by 5. -/
def MeetingJoiner.wait_for_admission (signal : Nat → AdmissionSignal)
    (timeout : Nat) : Nat × Bool :=
  MeetingJoiner.wait_for_admission_loop signal timeout 0 (timeout + 1)

/-- Substring test used to model the Python `in` operator on strings. -/
def strContainsSub (hay needle : String) : Bool :=
  decide (needle.toList <:+: hay.toList)

/-- Platform detection of `meeting_bot/joiner.py::MeetingJoiner.detect_platform`. -/
def MeetingJoiner.detect_platform (url : String) : MeetingPlatform :=
  let l := url.toLower
  if strContainsSub l "zoom.us" || strContainsSub l "zoom.com" then .zoom
  else if strContainsSub l "meet.google.com" then .googleMeet
  else .unknown

/-! ## Recorder (meeting_bot/recorder.py) -/

/-- Mutable state of `meeting_bot/recorder.py::MeetingRecorder` relevant
to session tracking: the single current `session` slot. -/
structure RecorderSt where
  session : Option MeetingSession := none
deriving DecidableEq, Repr

/-- Property `meeting_bot/recorder.py::MeetingRecorder.is_active`. -/
def MeetingRecorder.is_active (r : RecorderSt) : Bool :=
  match r.session with
  | some ms => ms.state = RecordingState.recording
  | none => false

/-- Formatting of `meeting_bot/recorder.py::MeetingRecorder._format_duration`. -/
def MeetingRecorder.format_duration (seconds : Nat) : String :=
  let hours := seconds / 3600
  let minutes := (seconds % 3600) / 60
  let secs := seconds % 60
  if hours > 0 then
    toString hours ++ "h " ++ toString minutes ++ "m " ++ toString secs ++ "s"
  else if minutes > 0 then toString minutes ++ "m " ++ toString secs ++ "s"
  else toString secs ++ "s"

/-- Method `meeting_bot/recorder.py::MeetingRecorder.start_session`: the
fresh session overwrites the single `session` slot unconditionally (no
check that another session is live); `joined` is the outcome of
`join_meeting` (an exception or its boolean result), `audioStart` the
outcome of `audio_capture.start_recording`. `now` is the wall clock at
the in-meeting transition. Returns the updated recorder state and the
session object handed back to the controller. -/
def MeetingRecorder.start_session (r : RecorderSt) (url : String)
    (joined : Except String Bool) (audioStart : Except String String)
    (now : Nat) : RecorderSt × MeetingSession :=
  let platform := MeetingJoiner.detect_platform url
  let s0 : MeetingSession := { meeting_url := url, platform := platform, state := .joining }
  match joined with
  | .error e =>
      let s := { s0 with state := .error, error_message := some e }
      ({ r with session := some s }, s)
  | .ok false =>
      let s := { s0 with state := .error, error_message := some "Failed to join meeting" }
      ({ r with session := some s }, s)
  | .ok true =>
      let s1 := { s0 with state := .inMeeting, start_time := some now }
      match audioStart with
      | .error e =>
          let s := { s1 with state := .error, error_message := some e }
          ({ r with session := some s }, s)
      | .ok f =>
          let s := { s1 with state := .recording, audio_file := some f }
          ({ r with session := some s }, s)

/-- Method `meeting_bot/recorder.py::MeetingRecorder.end_session`: stops
capture, sets `end_time`, state `ENDED` and the duration metadata. With
no session it is a no-op returning the state unchanged. -/
def MeetingRecorder.end_session (r : RecorderSt) (now : Nat) : RecorderSt :=
  match r.session with
  | none => r
  | some s =>
      let s := { s with end_time := some now, state := .ended }
      let s :=
        match s.start_time with
        | some st =>
            { s with duration_seconds := some (now - st),
                     duration_formatted := some (MeetingRecorder.format_duration (now - st)) }
        | none => s
      { r with session := some s }

/-- Tick loop of `meeting_bot/recorder.py::MeetingRecorder._monitor_meeting`:
at tick `k` (after sleeping one interval) the elapsed time is
`k * interval`; the loop first ends the session when
`elapsed >= maxDuration`, then when the browser reports the meeting over
(`endedAt elapsed`), else continues. Returns the tick at which
`end_session` is called; fuel bounds recursion and is chosen so it cannot
run out when `interval >= 1`. -/
def MeetingRecorder.monitor_loop (interval maxDuration : Nat)
    (endedAt : Nat → Bool) : Nat → Nat → Option Nat
  | _, 0 => none
  | k, fuel + 1 =>
    let elapsed := k * interval
    if maxDuration ≤ elapsed then some k
    else if endedAt elapsed then some k
    else MeetingRecorder.monitor_loop interval maxDuration endedAt (k + 1) fuel

/-- Tick at which the end-detection monitor ends the live phase, starting
from tick 1 with sufficient fuel. -/
def MeetingRecorder.monitorEndTick (interval maxDuration : Nat)
    (endedAt : Nat → Bool) : Option Nat :=
  MeetingRecorder.monitor_loop interval maxDuration endedAt 1 (maxDuration + 1)

/-- Default of `end_detection_interval_seconds` in
`meeting_bot/recorder.py::MeetingRecorder.__init__`. -/
def MeetingRecorder.defaultEndDetectionInterval : Nat := 10

/-! ## Controller state machine (controller.py) -/

/-- Shared state of `controller.py::SunnyAIController`: the session
registry, the id counter and the single shared recorder. -/
structure Controller where
  sessions : List (Nat × SessionRec) := []
  session_counter : Nat := 0
  recorder : RecorderSt := {}
deriving DecidableEq, Repr

/-- Registry lookup `self._sessions.get(session_id)`. -/
def Controller.find (c : Controller) (sid : Nat) : Option SessionRec :=
  (c.sessions.find? (fun p => p.1 = sid)).map Prod.snd

/-- Registry write `self._sessions[session_id] = ...` for an existing id. -/
def Controller.setSession (c : Controller) (sid : Nat) (s : SessionRec) : Controller :=
  { c with sessions := c.sessions.map (fun p => if p.1 = sid then (sid, s) else p) }

/-- Synchronous part of `controller.py::SunnyAIController.start_session`:
increments the counter, registers the session with status "starting" and
schedules the driving task; it performs no availability check and no
operation in it can fail. Returns the fresh id and the new state. -/
def SunnyAIController.start_session (c : Controller)
    (url recipient : String) (send : Bool) : Nat × Controller :=
  let sid := c.session_counter + 1
  let s : SessionRec :=
    { id := sid, meeting_url := url, recipient_email := recipient,
      send_email := send, status := "starting" }
  (sid, { c with session_counter := sid, sessions := c.sessions ++ [(sid, s)] })

/-- Join phase of `controller.py::SunnyAIController._run_session` (steps
up to "recording"): sets status "joining", calls the recorder, stores the
meeting session, and either records the error state or moves to status
"recording". -/
def SunnyAIController.run_session_join (c : Controller) (sid : Nat)
    (joined : Except String Bool) (audioStart : Except String String)
    (now : Nat) : Controller :=
  match c.find sid with
  | none => c
  | some s =>
      let (r, ms) := MeetingRecorder.start_session c.recorder s.meeting_url joined audioStart now
      let c := { c with recorder := r }
      let s := { s with meeting_session := some ms }
      if ms.state = RecordingState.error then
        c.setSession sid { s with status := "error", errorMsg := ms.error_message }
      else
        c.setSession sid { s with status := "recording" }

/-- Wait-loop exit of `controller.py::SunnyAIController._run_session`:
the driving task polls `recorder.is_active` every 5 s; once the recorder
is inactive the loop exits and the task sets status "processing". The
task does not re-read the session status, so this happens whatever status
the session holds at that point. -/
def SunnyAIController.run_session_wait_exit (c : Controller) (sid : Nat) : Controller :=
  if MeetingRecorder.is_active c.recorder then c
  else
    match c.find sid with
    | none => c
    | some s => c.setSession sid { s with status := "processing" }

/-- Processing phase of `controller.py::SunnyAIController._run_session`:
runs `_process_recording` on the stored meeting session. -/
def SunnyAIController.run_session_process (c : Controller) (sid : Nat)
    (cfg : FeatureConfig) (b : StageBehaviors) : Controller :=
  match c.find sid with
  | none => c
  | some s =>
      match s.meeting_session with
      | none => c
      | some ms => c.setSession sid (SunnyAIController.process_recording cfg b s ms)

/-- Method `controller.py::SunnyAIController.stop_session`: unknown ids
raise ValueError; for a session currently "recording" the recorder is
ended first; then the status is unconditionally overwritten to
"stopped" whatever it was before. -/
def SunnyAIController.stop_session (c : Controller) (sid : Nat)
    (now : Nat) : Except String Controller :=
  match c.find sid with
  | none => .error ("Session " ++ toString sid ++ " not found")
  | some s =>
      let c :=
        if s.status = "recording" then
          { c with recorder := MeetingRecorder.end_session c.recorder now }
        else c
      .ok (c.setSession sid { s with status := "stopped" })

/-! ## Status projection and storage (controller.py, database/storage.py) -/

/-- Row of `database/storage.py::MeetingRecord` (fields used by the
status/transcript/summary/pdf queries). -/
structure MeetingRecord where
  id : Nat
  platform : String
  start_time : Option String := none
  duration_seconds : Nat := 0
  transcript : String := ""
  summary_json : String := ""
  pdf_path : String := ""
  email_sent : Bool := false
deriving DecidableEq, Repr

/-- Table state of `database/storage.py::MeetingStorage`. -/
structure Storage where
  records : List (Nat × MeetingRecord) := []
deriving DecidableEq, Repr

/-- Query `database/storage.py::MeetingStorage.get_meeting`
(SELECT by primary key). -/
def Storage.get_meeting (st : Storage) (sid : Nat) : Option MeetingRecord :=
  (st.records.find? (fun p => p.1 = sid)).map Prod.snd

/-- Snapshot returned by
`controller.py::SunnyAIController.get_session_status`. -/
structure StatusSnapshot where
  session_id : Nat
  status : String
  platform : Option String := none
  start_time : Option String := none
  duration : Option String := none
  transcript_available : Bool := false
  summary_available : Bool := false
  pdf_path : Option String := none
  email_sent : Bool := false
deriving DecidableEq, Repr

/-- Registry branch of
`controller.py::SunnyAIController.get_session_status`: in particular
`email_sent` is computed as
`session.get("status") == "completed" and session.get("send_email", False)`,
not from the delivery outcome. -/
def SunnyAIController.snapshotOf (sid : Nat) (s : SessionRec) : StatusSnapshot :=
  { session_id := sid
    status := s.status
    platform := s.meeting_session.map (fun ms => ms.platform.value)
    start_time := (s.meeting_session.bind (fun ms => ms.start_time)).map toString
    duration := s.meeting_session.bind (fun ms => ms.duration_formatted)
    transcript_available := s.transcript.isSome
    summary_available := s.summary.isSome
    pdf_path := s.pdf_path
    email_sent := s.status = "completed" && s.send_email }

/-- Method `controller.py::SunnyAIController.get_session_status`: registry
first; on a miss, ids greater than 0 are looked up in storage and shown
as a "completed" snapshot. -/
def SunnyAIController.get_session_status (c : Controller) (st : Storage)
    (sid : Nat) : Option StatusSnapshot :=
  match c.find sid with
  | some s => some (SunnyAIController.snapshotOf sid s)
  | none =>
      if sid = 0 then none
      else
        match st.get_meeting sid with
        | some r =>
            some { session_id := r.id, status := "completed",
                   platform := some r.platform, start_time := r.start_time,
                   duration := some (toString r.duration_seconds ++ "s"),
                   transcript_available := r.transcript ≠ "",
                   summary_available := r.summary_json ≠ "",
                   pdf_path := some r.pdf_path, email_sent := r.email_sent }
        | none => none

/-- Method `controller.py::SunnyAIController.get_transcript`: registry
session with a transcript, else a storage record with non-empty
transcript text. -/
def SunnyAIController.get_transcript (c : Controller) (st : Storage)
    (sid : Nat) : Option (Nat × String × Nat) :=
  let fromDb :=
    match st.get_meeting sid with
    | some r => if r.transcript ≠ "" then some (sid, r.transcript, r.duration_seconds) else none
    | none => none
  match c.find sid with
  | some s =>
      match s.transcript with
      | some tr => some (sid, tr.text, tr.durationSec)
      | none => fromDb
  | none => fromDb

/-- Method `controller.py::SunnyAIController.get_summary` (shape reduced
to the summary payload). -/
def SunnyAIController.get_summary (c : Controller) (st : Storage)
    (sid : Nat) : Option (Nat × String) :=
  let fromDb :=
    match st.get_meeting sid with
    | some r => if r.summary_json ≠ "" then some (sid, r.summary_json) else none
    | none => none
  match c.find sid with
  | some s =>
      match s.summary with
      | some summ => some (sid, summ.executive_summary)
      | none => fromDb
  | none => fromDb

/-- Method `controller.py::SunnyAIController.get_pdf_path`. -/
def SunnyAIController.get_pdf_path (c : Controller) (st : Storage)
    (sid : Nat) : Option String :=
  let fromDb :=
    match st.get_meeting sid with
    | some r => if r.pdf_path ≠ "" then some r.pdf_path else none
    | none => none
  match c.find sid with
  | some s =>
      match s.pdf_path with
      | some p => some p
      | none => fromDb
  | none => fromDb

/-! ## HTTP surface (api/server.py) -/

/-- Outcome of an endpoint call: a payload or an HTTP error status with
detail, mirroring FastAPI HTTPException. -/
inductive ApiResult (α : Type) where
  | ok (val : α)
  | httpError (code : Nat) (detail : String)
deriving DecidableEq, Repr

/-- Endpoint `api/server.py::get_meeting_status`
(`GET /meetings/id/status`): 503 when the controller is absent, 404 when
the controller finds nothing. -/
def Api.get_meeting_status (ctrl : Option Controller) (st : Storage)
    (sid : Nat) : ApiResult StatusSnapshot :=
  match ctrl with
  | none => .httpError 503 "Controller not initialized"
  | some c =>
      match SunnyAIController.get_session_status c st sid with
      | none => .httpError 404 "Session not found"
      | some snap => .ok snap

/-- Endpoint `api/server.py::stop_meeting` (`POST /meetings/id/stop`):
503 when the controller is absent; the handler has no dedicated 404
branch — the ValueError raised by `stop_session` for an unknown id is
caught by the generic handler, which returns 500. -/
def Api.stop_meeting (ctrl : Option Controller) (sid : Nat)
    (now : Nat) : ApiResult (String × Nat) × Option Controller :=
  match ctrl with
  | none => (.httpError 503 "Controller not initialized", none)
  | some c =>
      match SunnyAIController.stop_session c sid now with
      | .ok c2 => (.ok ("stopped", sid), some c2)
      | .error e => (.httpError 500 e, some c)

/-- Endpoint `api/server.py::get_transcript`
(`GET /meetings/id/transcript`). -/
def Api.get_transcript (ctrl : Option Controller) (st : Storage)
    (sid : Nat) : ApiResult (Nat × String × Nat) :=
  match ctrl with
  | none => .httpError 503 "Controller not initialized"
  | some c =>
      match SunnyAIController.get_transcript c st sid with
      | none => .httpError 404 "Transcript not available"
      | some t => .ok t

/-- Endpoint `api/server.py::get_summary` (`GET /meetings/id/summary`). -/
def Api.get_summary (ctrl : Option Controller) (st : Storage)
    (sid : Nat) : ApiResult (Nat × String) :=
  match ctrl with
  | none => .httpError 503 "Controller not initialized"
  | some c =>
      match SunnyAIController.get_summary c st sid with
      | none => .httpError 404 "Summary not available"
      | some t => .ok t

/-- Endpoint `api/server.py::download_pdf` (`GET /meetings/id/pdf`);
`fileOnDisk` is the filesystem existence oracle for `Path.exists`. -/
def Api.download_pdf (ctrl : Option Controller) (st : Storage)
    (fileOnDisk : String → Bool) (sid : Nat) : ApiResult String :=
  match ctrl with
  | none => .httpError 503 "Controller not initialized"
  | some c =>
      match SunnyAIController.get_pdf_path c st sid with
      | none => .httpError 404 "PDF not available"
      | some p => if fileOnDisk p then .ok p else .httpError 404 "PDF not available"

/-! ## Concrete fixtures used by witnesses and counterexamples -/

/-- Transcription result fixture. -/
def okTr : TranscriptionResult := { text := "team discussed the quarterly roadmap" }

/-- Summary fixture. -/
def okSummary : MeetingSummary := { executive_summary := "roadmap agreed" }

/-- Behaviors in which every provider call succeeds. -/
def okBehaviors : StageBehaviors :=
  { transcribe := .ok okTr, summarize := .ok okSummary,
    pdfRender := .ok "reports/meeting.pdf", dbSave := .ok 7 }

/-- Session-registry fixture as it stands at the start of processing. -/
def procSession : SessionRec :=
  { id := 1, meeting_url := "https://meet.google.com/abc-defg-hij",
    recipient_email := "alice@example.com", send_email := true,
    status := "processing" }

/-- Meeting-session fixture after a recorded live phase. -/
def endedMs : MeetingSession :=
  { meeting_url := "https://meet.google.com/abc-defg-hij",
    platform := .googleMeet, start_time := some 100, end_time := some 400,
    audio_file := some "recordings/a.wav", state := .ended,
    duration_seconds := some 300, duration_formatted := some "5m 0s" }

/-- Configuration fixture with the memory store initialized. -/
def cfgMemReady : FeatureConfig := { memory_ready := true }

/-- Behaviors in which only the memory-store insert raises. -/
def memFailBehaviors : StageBehaviors :=
  { okBehaviors with memoryAdd := .error "chromadb collection add failed" }

/-- Final registry status after a stop call, when the call does not
raise. -/
def statusAfterStop (c : Controller) (sid now : Nat) : Option String :=
  match SunnyAIController.stop_session c sid now with
  | .ok c2 => (c2.find sid).map SessionRec.status
  | .error _ => none

/-- Registry session fixture already in the terminal status "completed". -/
def completedSession : SessionRec := { procSession with status := "completed" }

/-- Controller fixture holding one completed session. -/
def cCompleted : Controller :=
  { sessions := [(1, completedSession)], session_counter := 1 }

/-- Registry session fixture already in the terminal status "stopped". -/
def stoppedSession : SessionRec := { procSession with status := "stopped" }

/-- Controller fixture holding one stopped session. -/
def cStopped : Controller :=
  { sessions := [(1, stoppedSession)], session_counter := 1 }

/-- Meeting-session fixture for a live (recording) phase. -/
def recordingMs : MeetingSession :=
  { meeting_url := "https://meet.google.com/abc-defg-hij",
    platform := .googleMeet, start_time := some 100,
    audio_file := some "recordings/a.wav", state := .recording }

/-- Registry session fixture in the live "recording" status. -/
def recordingSession : SessionRec :=
  { procSession with status := "recording", meeting_session := some recordingMs }

/-- Controller fixture with one live recording session holding the
recorder. -/
def cRecording : Controller :=
  { sessions := [(1, recordingSession)], session_counter := 1,
    recorder := { session := some recordingMs } }

/-- Composition of the post-stop steps the driving task performs: after a
successful stop, `_run_session` observes the now-inactive recorder at its
next 5-second poll, sets status "processing", and runs
`_process_recording`. -/
def stopThenResume (c : Controller) (sid now : Nat) (cfg : FeatureConfig)
    (b : StageBehaviors) : Option Controller :=
  match SunnyAIController.stop_session c sid now with
  | .error _ => none
  | .ok c2 =>
      some (SunnyAIController.run_session_process
        (SunnyAIController.run_session_wait_exit c2 sid) sid cfg b)

/-- Trace fixture for concurrent starts: a second StartSession is issued
while session 1 is live, and both driving tasks complete their join
phase successfully. -/
def twoStartsTrace : Controller :=
  let r1 := SunnyAIController.start_session {}
    "https://meet.google.com/abc-defg-hij" "alice@example.com" true
  let c2 := SunnyAIController.run_session_join r1.2 r1.1
    (.ok true) (.ok "recordings/a.wav") 100
  let r2 := SunnyAIController.start_session c2
    "https://zoom.us/j/123456" "bob@example.com" true
  SunnyAIController.run_session_join r2.2 r2.1
    (.ok true) (.ok "recordings/b.wav") 130

/-- Admission trace in which the host never acts. -/
def perpetualPending : Nat → AdmissionSignal := fun _ => .pending

/-- Admission trace in which the page shows a denial at the first check. -/
def immediateDenial : Nat → AdmissionSignal := fun _ => .denied

/-- Meeting session produced by the recorder for a given join outcome. -/
def joinOutcomeSession (joined : Bool) : MeetingSession :=
  (MeetingRecorder.start_session {} "https://meet.google.com/abc-defg-hij"
    (.ok joined) (.ok "recordings/a.wav") 100).2

/-- Controller fixture after a started session whose join failed
(admission denied or timed out both surface as `join_meeting = False`). -/
def cAfterFailedJoin : Controller :=
  let r := SunnyAIController.start_session {}
    "https://meet.google.com/abc-defg-hij" "alice@example.com" true
  SunnyAIController.run_session_join r.2 r.1 (.ok false) (.ok "recordings/a.wav") 100

/-- Result of a single StartSession on a fresh controller. -/
def cStart1 : Nat × Controller :=
  SunnyAIController.start_session {}
    "https://meet.google.com/abc-defg-hij" "alice@example.com" true

/-- Behaviors in which only the email send raises. -/
def emailFailBehaviors : StageBehaviors :=
  { okBehaviors with emailSend := .error "smtp connection refused" }

/-! ## Helper lemmas about the processing pipeline -/

/-- Processing runs to "completed" whenever the stages without an
internal handler (transcription, summarization, analytics, PDF,
database save, memory store) all succeed, whatever the fail-soft
stages do. -/
theorem process_recording_completed (cfg : FeatureConfig) (b : StageBehaviors)
    (s : SessionRec) (ms : MeetingSession) (f : String)
    (tr : TranscriptionResult) (su : MeetingSummary) (m : MeetingMetrics)
    (pdf : String) (rid mid : Nat)
    (haudio : ms.audio_file = some f) (hex : b.audioFileExists = true)
    (htr : b.transcribe = .ok tr) (hsu : b.summarize = .ok su)
    (han : b.analyticsCompute = .ok m) (hpdf : b.pdfRender = .ok pdf)
    (hdb : b.dbSave = .ok rid) (hmem : b.memoryAdd = .ok mid) :
    (SunnyAIController.process_recording cfg b s ms).status = "completed" := by
  have hmem2 : MeetingMemory.store_meeting cfg.memory_ready b.memoryAdd
      = .ok (if cfg.memory_ready then mid else 0) := by
    unfold MeetingMemory.store_meeting
    cases cfg.memory_ready <;> simp [hmem]
  have han2 : MeetingAnalytics.generate_metrics cfg.analytics_enabled b.analyticsCompute
      = .ok (if cfg.analytics_enabled then m else {}) := by
    unfold MeetingAnalytics.generate_metrics
    cases cfg.analytics_enabled <;> simp [han]
  simp only [SunnyAIController.process_recording, haudio, hex, htr, hsu, hpdf,
    hdb, han2, hmem2]
  cases cfg.memory_ready <;> cases s.send_email <;> cases b.emailSend <;> simp

/-! ## C1 -/

/-- C1, counterexample: transcription succeeds and the fail-soft
memory-storage stage raises, yet the session ends in status "error", not
"completed" — the memory insert has no internal handler, so its exception
reaches the controller's catch-all, refuting the claim that every
fail-soft stage failure is absorbed and the session still completes. -/
theorem c1_counterexample :
    (SunnyAIController.process_recording cfgMemReady memFailBehaviors
        procSession endedMs).status = "error"
    ∧ (SunnyAIController.process_recording cfgMemReady memFailBehaviors
        procSession endedMs).status ≠ "completed"
    ∧ memFailBehaviors.transcribe = .ok okTr := by
  refine ⟨rfl, by decide, rfl⟩

/-- C1, amended: with audio present and transcription succeeding, errors
raised inside the fail-soft stages diarization, topic segmentation,
sentiment analysis, action-item extraction and follow-up generation are
caught inside the stage and replaced by that stage's defined
empty/default value, and the session still reaches "completed" — provided
the summarization, analytics, PDF, database-save and memory-store calls
do not raise, since those exceptions escape to the controller's catch-all;
a transcription error always yields status "error". -/
theorem c1_amended (cfg : FeatureConfig) (b : StageBehaviors)
    (s : SessionRec) (ms : MeetingSession) (f : String)
    (haudio : ms.audio_file = some f) (hex : b.audioFileExists = true) :
    (∀ tr su m pdf rid mid, b.transcribe = .ok tr → b.summarize = .ok su →
      b.analyticsCompute = .ok m → b.pdfRender = .ok pdf →
      b.dbSave = .ok rid → b.memoryAdd = .ok mid →
      (SunnyAIController.process_recording cfg b s ms).status = "completed"
      ∧ (∀ e, b.diarizePyannote = .error e →
          (SunnyAIController.process_recording cfg b s ms).diarization
            = some ({} : DiarizationResult))
      ∧ (∀ e, b.identifyTopics = .error e →
          (SunnyAIController.process_recording cfg b s ms).topics
            = some ({} : TopicSegmentationResult))
      ∧ (∀ e, b.sentimentInner = .error e →
          (SunnyAIController.process_recording cfg b s ms).sentiment
            = some ({} : SentimentResult))
      ∧ (∀ e, b.actionsInner = .error e →
          (SunnyAIController.process_recording cfg b s ms).action_items
            = some ({} : ActionItemResult))
      ∧ (∀ e, b.followupInner = .error e → cfg.followup_enabled = true →
          (SunnyAIController.process_recording cfg b s ms).followup_email
            = some b.followupTemplate))
    ∧ (∀ e, b.transcribe = .error e →
        (SunnyAIController.process_recording cfg b s ms).status = "error"
        ∧ (SunnyAIController.process_recording cfg b s ms).errorMsg = some e) := by
  constructor
  · intro tr su m pdf rid mid htr hsu han hpdf hdb hmem
    have hmem2 : MeetingMemory.store_meeting cfg.memory_ready b.memoryAdd
        = .ok (if cfg.memory_ready then mid else 0) := by
      unfold MeetingMemory.store_meeting
      cases cfg.memory_ready <;> simp [hmem]
    have han2 : MeetingAnalytics.generate_metrics cfg.analytics_enabled b.analyticsCompute
        = .ok (if cfg.analytics_enabled then m else {}) := by
      unfold MeetingAnalytics.generate_metrics
      cases cfg.analytics_enabled <;> simp [han]
    refine ⟨?_, ?_, ?_, ?_, ?_, ?_⟩
    · exact process_recording_completed cfg b s ms f tr su m pdf rid mid
        haudio hex htr hsu han hpdf hdb hmem
    · intro e hdi
      simp only [SunnyAIController.process_recording, haudio, hex, htr, hsu, hpdf,
        hdb, han2, hmem2, SpeakerDiarizer.diarize, hdi]
      cases cfg.diarization_enabled <;> cases cfg.diarizer_ready <;>
        cases cfg.memory_ready <;> cases s.send_email <;> cases b.emailSend <;> simp
    · intro e hto
      simp only [SunnyAIController.process_recording, haudio, hex, htr, hsu, hpdf,
        hdb, han2, hmem2, TopicSegmenter.segment_topics, hto]
      cases cfg.topic_segmentation_enabled <;> cases cfg.memory_ready <;>
        cases s.send_email <;> cases b.emailSend <;> simp
    · intro e hse
      simp only [SunnyAIController.process_recording, haudio, hex, htr, hsu, hpdf,
        hdb, han2, hmem2, SentimentAnalyzer.analyze, hse]
      cases cfg.sentiment_enabled <;> cases cfg.memory_ready <;>
        cases s.send_email <;> cases b.emailSend <;> simp
    · intro e hac
      simp only [SunnyAIController.process_recording, haudio, hex, htr, hsu, hpdf,
        hdb, han2, hmem2, ActionItemExtractor.extract, hac]
      cases cfg.action_items_enabled <;> cases cfg.memory_ready <;>
        cases s.send_email <;> cases b.emailSend <;> simp
    · intro e hfu hen
      simp only [SunnyAIController.process_recording, haudio, hex, htr, hsu, hpdf,
        hdb, han2, hmem2, FollowupEmailGenerator.generate, hfu, hen]
      cases cfg.memory_ready <;> cases s.send_email <;> cases b.emailSend <;> simp
  · intro e htr
    simp only [SunnyAIController.process_recording, haudio, hex, htr]
    simp

/-- C1, witness: the amended theorem applied to a concrete run in which
the diarization provider throws and every fail-hard call succeeds. -/
theorem c1_amended_witness :
    (SunnyAIController.process_recording {} { okBehaviors with
        diarizePyannote := .error "pyannote crashed" } procSession endedMs).status
      = "completed"
    ∧ (SunnyAIController.process_recording {} { okBehaviors with
        diarizePyannote := .error "pyannote crashed" } procSession endedMs).diarization
      = some ({} : DiarizationResult) := by
  have h := c1_amended {} { okBehaviors with diarizePyannote := .error "pyannote crashed" }
    procSession endedMs "recordings/a.wav" rfl rfl
  have h1 := h.1 okTr okSummary {} "reports/meeting.pdf" 7 0 rfl rfl rfl rfl rfl rfl
  exact ⟨h1.1, h1.2.1 "pyannote crashed" rfl⟩

/-! ## Registry lookup lemmas -/

/-- Writing a session under an id leaves lookups of that id pointing at
the new value when the id was present, and changes nothing when absent. -/
theorem Controller.find_setSession_eq (c : Controller) (sid : Nat) (s : SessionRec) :
    (c.setSession sid s).find sid = (c.find sid).map (fun _ => s) := by
  unfold Controller.setSession Controller.find
  induction c.sessions with
  | nil => simp
  | cons p l ih =>
      by_cases h : p.1 = sid
      · simp [List.find?, h]
      · simpa [List.find?, h] using ih

/-- Entry-wise replacement under one key does not change `find?` results
for a different key. -/
theorem find?_update_other (sid j : Nat) (s : SessionRec) (hj : j ≠ sid) :
    ∀ l : List (Nat × SessionRec),
      List.find? (fun p => p.1 = j)
          (l.map (fun p => if p.1 = sid then (sid, s) else p))
        = List.find? (fun p => p.1 = j) l
  | [] => rfl
  | p :: l => by
      have tail := find?_update_other sid j s hj l
      by_cases h : p.1 = sid
      · have hpj : ¬ p.1 = j := by rw [h]; exact fun hh => hj hh.symm
        have d1 : (decide (sid = j)) = false :=
          decide_eq_false (fun hh => hj hh.symm)
        have d2 : (decide (p.1 = j)) = false := decide_eq_false hpj
        simp only [List.map_cons, if_pos h, List.find?_cons, d1, d2]
        exact tail
      · by_cases h2 : p.1 = j
        · have d2 : (decide (p.1 = j)) = true := decide_eq_true h2
          simp only [List.map_cons, if_neg h, List.find?_cons, d2]
        · have d2 : (decide (p.1 = j)) = false := decide_eq_false h2
          simp only [List.map_cons, if_neg h, List.find?_cons, d2]
          exact tail

/-- Writing a session under one id does not change lookups of other ids. -/
theorem Controller.find_setSession_ne (c : Controller) (sid : Nat) (s : SessionRec)
    (j : Nat) (hj : j ≠ sid) : (c.setSession sid s).find j = c.find j := by
  unfold Controller.setSession Controller.find
  rw [find?_update_other sid j s hj]

/-- Overwriting a field of a record with the value it already holds is
the identity. -/
theorem SessionRec.set_status_self (s : SessionRec) (v : String)
    (h : s.status = v) : { s with status := v } = s := by
  cases s
  simp_all

/-! ## C2 -/

/-- C2, counterexample: the registry session 1 is in the terminal state
"completed", yet StopSession succeeds and overwrites its state to
"stopped" — a terminal state is not preserved, refuting the claim that no
operation ever changes a terminal session's state. -/
theorem c2_counterexample :
    cCompleted.find 1 = some completedSession
    ∧ completedSession.status = "completed"
    ∧ statusAfterStop cCompleted 1 500 = some "stopped" := by
  refine ⟨rfl, rfl, rfl⟩

/-- C2, amended: StopSession on an unknown id raises; on any registered
session it succeeds and unconditionally overwrites the status to
"stopped" — including sessions already in "completed" or "error" — so of
the three claimed terminal states only "stopped" is actually preserved:
StopSession is idempotent, a second stop yields the same "stopped"
status, and stopping an already-"stopped" session changes no registry
entry and leaves the recorder untouched. -/
theorem c2_amended (c : Controller) (sid now now2 : Nat) :
    (c.find sid = none →
      SunnyAIController.stop_session c sid now
        = .error ("Session " ++ toString sid ++ " not found"))
    ∧ (∀ s, c.find sid = some s →
        ∃ c2, SunnyAIController.stop_session c sid now = .ok c2
          ∧ c2.find sid = some { s with status := "stopped" }
          ∧ (s.status ≠ "recording" → c2.recorder = c.recorder)
          ∧ (s.status = "stopped" → ∀ j, c2.find j = c.find j)
          ∧ ∃ c3, SunnyAIController.stop_session c2 sid now2 = .ok c3
              ∧ c3.find sid = some { s with status := "stopped" }) := by
  constructor
  · intro h
    unfold SunnyAIController.stop_session
    rw [h]
  · intro s h
    have hc1find : ∀ j, (if s.status = "recording" then
        { c with recorder := MeetingRecorder.end_session c.recorder now }
        else c).find j = c.find j := by
      intro j
      by_cases hr : s.status = "recording" <;> simp [hr, Controller.find]
    have hstop : SunnyAIController.stop_session c sid now
        = .ok ((if s.status = "recording" then
            { c with recorder := MeetingRecorder.end_session c.recorder now }
            else c).setSession sid { s with status := "stopped" }) := by
      unfold SunnyAIController.stop_session
      rw [h]
    have hfind2 : ((if s.status = "recording" then
        { c with recorder := MeetingRecorder.end_session c.recorder now }
        else c).setSession sid { s with status := "stopped" }).find sid
          = some { s with status := "stopped" } := by
      rw [Controller.find_setSession_eq, hc1find, h]
      rfl
    refine ⟨_, hstop, hfind2, ?_, ?_, ?_⟩
    · intro hr
      simp [Controller.setSession, hr]
    · intro hst j
      by_cases hj : j = sid
      · subst hj
        rw [hfind2, SessionRec.set_status_self s _ hst, h]
      · rw [Controller.find_setSession_ne _ sid _ j hj, hc1find]
    · have hstop2 : SunnyAIController.stop_session
          ((if s.status = "recording" then
            { c with recorder := MeetingRecorder.end_session c.recorder now }
            else c).setSession sid { s with status := "stopped" }) sid now2
          = .ok (((if s.status = "recording" then
              { c with recorder := MeetingRecorder.end_session c.recorder now }
              else c).setSession sid { s with status := "stopped" }).setSession
                sid { s with status := "stopped" }) := by
        unfold SunnyAIController.stop_session
        rw [hfind2]
        simp
      refine ⟨_, hstop2, ?_⟩
      rw [Controller.find_setSession_eq, hfind2]
      rfl

/-- C2, witness: the amended theorem applied to the concrete controller
holding a single already-stopped session. -/
theorem c2_amended_witness :
    ∃ c2, SunnyAIController.stop_session cStopped 1 500 = .ok c2
      ∧ c2.find 1 = some stoppedSession
      ∧ c2.recorder = cStopped.recorder := by
  obtain ⟨c2, h1, h2, h3, _, _⟩ :=
    (c2_amended cStopped 1 500 600).2 stoppedSession rfl
  exact ⟨c2, h1, by simpa using h2, h3 (by decide)⟩

/-- Ending a recorder session always leaves the recorder inactive. -/
theorem MeetingRecorder.is_active_end_session (r : RecorderSt) (now : Nat) :
    MeetingRecorder.is_active (MeetingRecorder.end_session r now) = false := by
  unfold MeetingRecorder.end_session MeetingRecorder.is_active
  cases hr : r.session with
  | none => simp [MeetingRecorder.is_active, hr]
  | some s => cases hst : s.start_time <;> simp [hst]

/-! ## C3 -/

/-- C3, counterexample: session 1 is "recording"; StopSession returns
with the session in "stopped", but the driving task then resumes — its
wait loop sees the inactive recorder, overwrites the status with
"processing", and with successful processing the session ends in
"completed". This refutes the part of the claim that a stopped session
never subsequently transitions to Completed. -/
theorem c3_counterexample :
    (cRecording.find 1).map SessionRec.status = some "recording"
    ∧ statusAfterStop cRecording 1 400 = some "stopped"
    ∧ ((stopThenResume cRecording 1 400 {} okBehaviors).bind
        (fun c => (c.find 1).map SessionRec.status)) = some "completed" := by
  refine ⟨rfl, rfl, rfl⟩

/-- C3, amended: StopSession on a Recording session ends the recording
and returns only after the session status is "stopped" (so the caller
observes Stopped, and the recorder is inactive, within the call itself —
well within one end-detection interval); however the driving task is not
cancelled: at its next 5-second poll it overwrites the status with
"processing", and if every fail-hard processing stage succeeds the
session subsequently reaches "completed". -/
theorem c3_amended (c : Controller) (sid now : Nat) (s : SessionRec)
    (h : c.find sid = some s) (hrec : s.status = "recording") :
    ∃ c2, SunnyAIController.stop_session c sid now = .ok c2
      ∧ (c2.find sid).map SessionRec.status = some "stopped"
      ∧ MeetingRecorder.is_active c2.recorder = false
      ∧ ((SunnyAIController.run_session_wait_exit c2 sid).find sid).map
          SessionRec.status = some "processing"
      ∧ (∀ cfg b ms f tr su m pdf rid mid,
          s.meeting_session = some ms → ms.audio_file = some f →
          b.audioFileExists = true → b.transcribe = .ok tr →
          b.summarize = .ok su → b.analyticsCompute = .ok m →
          b.pdfRender = .ok pdf → b.dbSave = .ok rid → b.memoryAdd = .ok mid →
          ((SunnyAIController.run_session_process
              (SunnyAIController.run_session_wait_exit c2 sid) sid cfg b).find sid).map
            SessionRec.status = some "completed") := by
  set s1 : SessionRec := { s with status := "stopped" } with hs1
  set c1 : Controller :=
    { c with recorder := MeetingRecorder.end_session c.recorder now } with hc1
  set cS : Controller := c1.setSession sid s1 with hcS
  have hstop : SunnyAIController.stop_session c sid now = .ok cS := by
    unfold SunnyAIController.stop_session
    rw [h]
    simp [hrec, hcS, hc1, hs1]
  have hfind2 : cS.find sid = some s1 := by
    rw [hcS, Controller.find_setSession_eq,
      show c1.find sid = c.find sid from rfl, h]
    rfl
  have hrecorder : cS.recorder = MeetingRecorder.end_session c.recorder now := rfl
  have hinact : MeetingRecorder.is_active cS.recorder = false := by
    rw [hrecorder]
    exact MeetingRecorder.is_active_end_session c.recorder now
  set s2 : SessionRec := { s with status := "processing" } with hs2
  set cP : Controller := cS.setSession sid s2 with hcP
  have hs1s2 : ({ s1 with status := "processing" } : SessionRec) = s2 := rfl
  have hwait : SunnyAIController.run_session_wait_exit cS sid = cP := by
    unfold SunnyAIController.run_session_wait_exit
    rw [hinact, hfind2]
    simp [hcP, hs1s2]
  have hfind3 : cP.find sid = some s2 := by
    rw [hcP, Controller.find_setSession_eq, hfind2]
    rfl
  refine ⟨cS, hstop, by rw [hfind2]; rfl, hinact, by rw [hwait, hfind3]; rfl, ?_⟩
  intro cfg b ms f tr su m pdf rid mid hms haudio hex htr hsu han hpdf hdb hmem
  have hms2 : s2.meeting_session = some ms := by
    rw [hs2]
    simpa using hms
  have hcompleted := process_recording_completed cfg b s2 ms f
    tr su m pdf rid mid haudio hex htr hsu han hpdf hdb hmem
  have hproc : SunnyAIController.run_session_process cP sid cfg b
      = cP.setSession sid (SunnyAIController.process_recording cfg b s2 ms) := by
    unfold SunnyAIController.run_session_process
    rw [hfind3]
    simp only []
    rw [hms2]
  rw [hwait, hproc, Controller.find_setSession_eq, hfind3]
  simp [hcompleted]

/-- C3, witness: the amended theorem applied to the concrete recording
session, checking the stopped status, the released recorder, and the
subsequent overwrite to "processing" and "completed". -/
theorem c3_amended_witness :
    ∃ c2, SunnyAIController.stop_session cRecording 1 400 = .ok c2
      ∧ (c2.find 1).map SessionRec.status = some "stopped"
      ∧ ((SunnyAIController.run_session_process
          (SunnyAIController.run_session_wait_exit c2 1) 1 {} okBehaviors).find 1).map
            SessionRec.status = some "completed" := by
  obtain ⟨c2, h1, h2, _, _, h5⟩ := c3_amended cRecording 1 400 recordingSession rfl rfl
  exact ⟨c2, h1, h2, h5 {} okBehaviors recordingMs "recordings/a.wav" okTr okSummary
    {} "reports/meeting.pdf" 7 0 rfl rfl rfl rfl rfl rfl rfl rfl rfl⟩

/-! ## C4 -/

/-- C4: evaluation at the failing input — StartSession is called a second
time while session 1 is recording; the code performs no availability
check, so both calls register sessions, both driving tasks run, both
sessions are simultaneously in the live "recording" state, and the second
join silently overwrites the single recorder's session slot. The
exclusivity the claim asserts is not enforced anywhere in
`controller.py::start_session` or `meeting_bot/recorder.py::start_session`. -/
theorem c4_overlapping_recordings :
    (twoStartsTrace.find 1).map SessionRec.status = some "recording"
    ∧ (twoStartsTrace.find 2).map SessionRec.status = some "recording"
    ∧ twoStartsTrace.recorder.session.map MeetingSession.meeting_url
        = some "https://zoom.us/j/123456"
    ∧ MeetingRecorder.is_active twoStartsTrace.recorder = true := by
  refine ⟨rfl, rfl, rfl, rfl⟩

/-! ## C5 -/

/-- With fuel covering the timeout, a perpetually pending admission makes
the wait loop return false at an elapsed time no smaller than the
timeout. -/
theorem wait_loop_pending (timeout : Nat) :
    ∀ fuel e, timeout ≤ 5 * fuel + e →
      timeout ≤ (MeetingJoiner.wait_for_admission_loop perpetualPending timeout e fuel).1
      ∧ (MeetingJoiner.wait_for_admission_loop perpetualPending timeout e fuel).2 = false
  | 0, e, hfe => by
      unfold MeetingJoiner.wait_for_admission_loop
      exact ⟨by simpa using hfe, rfl⟩
  | fuel + 1, e, hfe => by
      unfold MeetingJoiner.wait_for_admission_loop
      by_cases he : e < timeout
      · rw [if_pos he]
        show timeout ≤ (MeetingJoiner.wait_for_admission_loop perpetualPending timeout
            (e + MeetingJoiner.admissionCheckInterval) fuel).1 ∧ _
        exact wait_loop_pending timeout fuel (e + MeetingJoiner.admissionCheckInterval)
          (by unfold MeetingJoiner.admissionCheckInterval; omega)
      · rw [if_neg he]
        exact ⟨by omega, rfl⟩

/-- With fuel covering the timeout, a false return of the wait loop
happens either at or after the timeout, or at a check that observed an
explicit denial. -/
theorem wait_loop_false (signal : Nat → AdmissionSignal) (timeout : Nat) :
    ∀ fuel e, timeout ≤ 5 * fuel + e →
      (MeetingJoiner.wait_for_admission_loop signal timeout e fuel).2 = false →
      timeout ≤ (MeetingJoiner.wait_for_admission_loop signal timeout e fuel).1
      ∨ signal (MeetingJoiner.wait_for_admission_loop signal timeout e fuel).1
          = .denied
  | 0, e, hfe, _ => by
      unfold MeetingJoiner.wait_for_admission_loop
      exact Or.inl (by simpa using hfe)
  | fuel + 1, e, hfe, hfalse => by
      unfold MeetingJoiner.wait_for_admission_loop at hfalse ⊢
      by_cases he : e < timeout
      · rw [if_pos he] at hfalse ⊢
        cases hsig : signal (e + MeetingJoiner.admissionCheckInterval) with
        | admitted => simp [hsig] at hfalse
        | denied => simp [hsig]
        | pending =>
            simp only [hsig] at hfalse ⊢
            rcases wait_loop_false signal timeout fuel
              (e + MeetingJoiner.admissionCheckInterval)
              (by unfold MeetingJoiner.admissionCheckInterval; omega) hfalse with h | h
            · exact Or.inl h
            · exact Or.inr h
      · rw [if_neg he]
        exact Or.inl (by omega)

/-- A true return of the wait loop happens exactly at a check that
verified the bot as in the meeting. -/
theorem wait_loop_true (signal : Nat → AdmissionSignal) (timeout : Nat) :
    ∀ fuel e,
      (MeetingJoiner.wait_for_admission_loop signal timeout e fuel).2 = true →
      signal (MeetingJoiner.wait_for_admission_loop signal timeout e fuel).1 = .admitted
  | 0, e, htrue => absurd htrue (by simp [MeetingJoiner.wait_for_admission_loop])
  | fuel + 1, e, htrue => by
      unfold MeetingJoiner.wait_for_admission_loop at htrue ⊢
      by_cases he : e < timeout
      · rw [if_pos he] at htrue ⊢
        cases hsig : signal (e + MeetingJoiner.admissionCheckInterval) with
        | admitted => simp [hsig]
        | denied => simp [hsig] at htrue
        | pending =>
            simp only [hsig] at htrue ⊢
            exact wait_loop_true signal timeout fuel
              (e + MeetingJoiner.admissionCheckInterval) htrue
      · rw [if_neg he] at htrue
        exact absurd htrue (by simp)

/-- C5, counterexample: with `waiting_room_timeout_seconds = 30`,
perpetual pending admission fails at elapsed 30 s and an explicit denial
fails at elapsed 5 s, but both failures surface identically as
`join_meeting = False`, which the recorder and controller record as the
single generic message "Failed to join meeting" in state error — there is
no AdmissionTimeout reason distinct from AdmissionDenied anywhere; and
the loop polls at the hard-coded 5 s interval, not the 10 s end-detection
interval the claim requires. -/
theorem c5_counterexample :
    MeetingJoiner.wait_for_admission perpetualPending 30 = (30, false)
    ∧ MeetingJoiner.wait_for_admission immediateDenial 30 = (5, false)
    ∧ (joinOutcomeSession false).state = RecordingState.error
    ∧ (joinOutcomeSession false).error_message = some "Failed to join meeting"
    ∧ (cAfterFailedJoin.find 1).map SessionRec.status = some "error"
    ∧ (cAfterFailedJoin.find 1).map SessionRec.errorMsg
        = some (some "Failed to join meeting")
    ∧ MeetingJoiner.admissionCheckInterval = 5
    ∧ MeetingRecorder.defaultEndDetectionInterval = 10
    ∧ MeetingJoiner.admissionCheckInterval
        ≠ MeetingRecorder.defaultEndDetectionInterval := by
  exact ⟨rfl, rfl, rfl, rfl, rfl, rfl, rfl, rfl, by decide⟩

/-- C5, amended: under perpetual pending admission the wait fails (and
only fails) at elapsed time at least `waiting_room_timeout_seconds`; a
false return before the timeout can only come from an explicit denial
check; a true return comes only from a verified admission, after which
the recorder proceeds to state Recording; polling is at the fixed 5 s
interval (not the end-detection interval), and both failure modes
surface as the same generic "Failed to join meeting" error with no
distinct AdmissionTimeout or AdmissionDenied reason. -/
theorem c5_amended (timeout : Nat) (signal : Nat → AdmissionSignal) :
    ((∀ t, signal t = .pending) →
      timeout ≤ (MeetingJoiner.wait_for_admission signal timeout).1
      ∧ (MeetingJoiner.wait_for_admission signal timeout).2 = false)
    ∧ ((MeetingJoiner.wait_for_admission signal timeout).2 = false →
        timeout ≤ (MeetingJoiner.wait_for_admission signal timeout).1
        ∨ signal (MeetingJoiner.wait_for_admission signal timeout).1 = .denied)
    ∧ ((MeetingJoiner.wait_for_admission signal timeout).2 = true →
        signal (MeetingJoiner.wait_for_admission signal timeout).1 = .admitted)
    ∧ (∀ r url audio now, ((MeetingRecorder.start_session r url (.ok false)
        audio now).2).state = RecordingState.error
        ∧ ((MeetingRecorder.start_session r url (.ok false) audio now).2).error_message
          = some "Failed to join meeting")
    ∧ (∀ r url f now, ((MeetingRecorder.start_session r url (.ok true)
        (.ok f) now).2).state = RecordingState.recording)
    ∧ MeetingJoiner.admissionCheckInterval = 5 := by
  refine ⟨?_, ?_, ?_, ?_, ?_, rfl⟩
  · intro hp
    have heq : signal = perpetualPending := by
      funext t
      exact hp t
    rw [heq]
    exact wait_loop_pending timeout (timeout + 1) 0 (by omega)
  · intro hfalse
    rcases wait_loop_false signal timeout (timeout + 1) 0 (by omega) hfalse with h | h
    · exact Or.inl h
    · exact Or.inr h
  · intro htrue
    exact wait_loop_true signal timeout (timeout + 1) 0 htrue
  · intro r url audio now
    unfold MeetingRecorder.start_session
    exact ⟨rfl, rfl⟩
  · intro r url f now
    unfold MeetingRecorder.start_session
    rfl

/-- C5, witness: the amended theorem applied to the 30-second timeout
with perpetually pending admission and to a successful join. -/
theorem c5_amended_witness :
    (30 ≤ (MeetingJoiner.wait_for_admission perpetualPending 30).1
      ∧ (MeetingJoiner.wait_for_admission perpetualPending 30).2 = false)
    ∧ (joinOutcomeSession true).state = RecordingState.recording := by
  have h := c5_amended 30 perpetualPending
  exact ⟨h.1 (fun t => rfl),
    h.2.2.2.2.1 {} "https://meet.google.com/abc-defg-hij" "recordings/a.wav" 100⟩

/-! ## C6 -/

/-- With fuel covering the max duration and a positive interval, the
monitor loop always fires. -/
theorem monitor_loop_total (interval maxD : Nat) (endedAt : Nat → Bool) :
    ∀ fuel k, maxD ≤ (k + fuel) * interval →
      (MeetingRecorder.monitor_loop interval maxD endedAt k (fuel + 1)).isSome
  | 0, k, hk => by
      unfold MeetingRecorder.monitor_loop
      rw [if_pos (by simpa using hk)]
      rfl
  | fuel + 1, k, hk => by
      unfold MeetingRecorder.monitor_loop
      by_cases h1 : maxD ≤ k * interval
      · rw [if_pos h1]
        rfl
      · rw [if_neg h1]
        by_cases h2 : endedAt (k * interval) = true
        · rw [if_pos h2]
          rfl
        · rw [if_neg h2]
          exact monitor_loop_total interval maxD endedAt fuel (k + 1)
            (by
              have hx : k + 1 + fuel = k + (fuel + 1) := by omega
              rw [hx]
              exact hk)

/-- Any tick the monitor loop fires at is no more than one tick past the
first tick at which the elapsed time reaches the max duration. -/
theorem monitor_loop_bound (interval maxD : Nat) (endedAt : Nat → Bool) :
    ∀ fuel k k2,
      MeetingRecorder.monitor_loop interval maxD endedAt k fuel = some k2 →
      k ≤ k2 ∧ (k2 = k ∨ (k2 - 1) * interval < maxD)
  | 0, k, k2, h => by
      unfold MeetingRecorder.monitor_loop at h
      exact absurd h (by simp)
  | fuel + 1, k, k2, h => by
      unfold MeetingRecorder.monitor_loop at h
      by_cases h1 : maxD ≤ k * interval
      · rw [if_pos h1] at h
        obtain rfl : k = k2 := by simpa using h
        exact ⟨le_refl k, Or.inl rfl⟩
      · rw [if_neg h1] at h
        by_cases h2 : endedAt (k * interval) = true
        · rw [if_pos h2] at h
          obtain rfl : k = k2 := by simpa using h
          exact ⟨le_refl k, Or.inl rfl⟩
        · rw [if_neg h2] at h
          obtain ⟨hle, hor⟩ := monitor_loop_bound interval maxD endedAt fuel (k + 1) k2 h
          refine ⟨by omega, Or.inr ?_⟩
          rcases hor with rfl | hlt
          · simpa using lt_of_not_le h1
          · exact hlt

/-- C6: once the elapsed wall time reaches `max_duration_minutes * 60`,
the end-detection monitor ends the live phase within one tick — the
monitor fires at some tick `k` whose elapsed time `k * interval` is at
most one interval past the max-duration threshold (it can fire earlier on
a detected meeting end), and `end_session` leaves the session out of the
Recording state. -/
theorem c6_max_duration_tick (interval maxD : Nat) (endedAt : Nat → Bool)
    (hpos : 1 ≤ interval) :
    ∃ k, MeetingRecorder.monitorEndTick interval maxD endedAt = some k
      ∧ k * interval ≤ maxD + interval
      ∧ ∀ r now, MeetingRecorder.is_active (MeetingRecorder.end_session r now) = false := by
  have htot := monitor_loop_total interval maxD endedAt maxD 1
    (by nlinarith)
  unfold MeetingRecorder.monitorEndTick
  obtain ⟨k, hk⟩ := Option.isSome_iff_exists.mp htot
  refine ⟨k, hk, ?_, fun r now => MeetingRecorder.is_active_end_session r now⟩
  obtain ⟨hle, hor⟩ := monitor_loop_bound interval maxD endedAt (maxD + 1) 1 k hk
  rcases hor with rfl | hlt
  · omega
  · have : (k - 1) * interval + interval = k * interval := by
      have hk1 : 1 ≤ k := hle
      calc (k - 1) * interval + interval = ((k - 1) + 1) * interval := by ring
        _ = k * interval := by rw [Nat.sub_add_cancel hk1]
    omega

/-- C6, witness: the theorem applied at a 10-second tick and a 60-second
max duration with no remote end signal; the monitor fires at the sixth
tick, elapsed 60 s. -/
theorem c6_max_duration_tick_witness :
    MeetingRecorder.monitorEndTick 10 60 (fun _ => false) = some 6
    ∧ ∃ k, MeetingRecorder.monitorEndTick 10 60 (fun _ => false) = some k
        ∧ k * 10 ≤ 70 := by
  refine ⟨rfl, ?_⟩
  obtain ⟨k, h1, h2, _⟩ := c6_max_duration_tick 10 60 (fun _ => false) (by decide)
  exact ⟨k, h1, h2⟩

/-! ## C7 -/

/-- A search over an appended list takes the first list's hit when there
is one and otherwise continues into the second list. -/
theorem find?_append_split {α : Type} (p : α → Bool) :
    ∀ l1 l2 : List α,
      List.find? p (l1 ++ l2)
        = match List.find? p l1 with
          | some a => some a
          | none => List.find? p l2
  | [], _ => rfl
  | a :: l1, l2 => by
      rw [List.cons_append, List.find?_cons, List.find?_cons]
      cases hp : p a with
      | true => rfl
      | false => exact find?_append_split p l1 l2

/-- C7, counterexample: the session registered synchronously by
StartSession carries status "starting", not "joining" — the "joining"
status is only written later by the asynchronous driving task, so a
status query racing the task start observes a state outside the claimed
registration state. -/
theorem c7_counterexample :
    ((cStart1.2).find cStart1.1).map SessionRec.status = some "starting"
    ∧ ((cStart1.2).find cStart1.1).map SessionRec.status ≠ some "joining" := by
  exact ⟨rfl, by decide⟩

/-- C7, amended: the synchronous part of StartSession is a total function
(it never fails); it returns the id `counter + 1`, which under the
registry invariant (all registered ids are at most the counter) is fresh;
it registers the session with exactly the caller-supplied fields and
status "starting" (the driving task sets "joining" when it begins);
it leaves every other session untouched, preserves the invariant, and a
second call returns the strictly larger id `counter + 2`. -/
theorem c7_amended (c : Controller) (url recipient : String) (send : Bool)
    (hinv : ∀ p ∈ c.sessions, p.1 ≤ c.session_counter) :
    (SunnyAIController.start_session c url recipient send).1 = c.session_counter + 1
    ∧ c.find (c.session_counter + 1) = none
    ∧ ((SunnyAIController.start_session c url recipient send).2).find
        (c.session_counter + 1)
      = some { id := c.session_counter + 1, meeting_url := url,
               recipient_email := recipient, send_email := send,
               status := "starting" }
    ∧ (∀ j, j ≠ c.session_counter + 1 →
        ((SunnyAIController.start_session c url recipient send).2).find j = c.find j)
    ∧ (∀ p ∈ ((SunnyAIController.start_session c url recipient send).2).sessions,
        p.1 ≤ ((SunnyAIController.start_session c url recipient send).2).session_counter)
    ∧ (SunnyAIController.start_session
        ((SunnyAIController.start_session c url recipient send).2) url recipient send).1
      = c.session_counter + 2 := by
  have hnone : List.find? (fun p => p.1 = c.session_counter + 1) c.sessions = none := by
    rw [List.find?_eq_none]
    intro p hp
    have := hinv p hp
    simp only [decide_eq_true_eq]
    omega
  refine ⟨rfl, ?_, ?_, ?_, ?_, ?_⟩
  · unfold Controller.find
    rw [hnone]
    rfl
  · show (Controller.find _ _) = _
    unfold Controller.find SunnyAIController.start_session
    rw [find?_append_split _ _ _, hnone]
    simp [List.find?_cons]
  · intro j hj
    show (Controller.find _ _) = Controller.find _ _
    unfold Controller.find SunnyAIController.start_session
    rw [find?_append_split]
    cases hfl : List.find? (fun p => p.1 = j) c.sessions with
    | some a => rfl
    | none =>
        have hsingle : List.find? (fun p => (p.1 = j : Bool))
            [(c.session_counter + 1,
              ({ id := c.session_counter + 1, meeting_url := url,
                 recipient_email := recipient, send_email := send,
                 status := "starting" } : SessionRec))] = none := by
          rw [List.find?_eq_none]
          intro p hp
          simp only [List.mem_singleton] at hp
          subst hp
          simp only [decide_eq_true_eq]
          omega
        rw [hsingle]
  · intro p hp
    unfold SunnyAIController.start_session at hp
    simp only [List.mem_append, List.mem_singleton] at hp
    rcases hp with hp | hp
    · have := hinv p hp
      simp only [SunnyAIController.start_session]
      omega
    · subst hp
      simp [SunnyAIController.start_session]
  · simp [SunnyAIController.start_session]

/-- C7, witness: the amended theorem applied to a fresh controller —
first id 1, registered with status "starting", second id 2. -/
theorem c7_amended_witness :
    (SunnyAIController.start_session ({} : Controller)
        "https://meet.google.com/abc-defg-hij" "alice@example.com" true).1 = 1
    ∧ ({} : Controller).find 1 = none
    ∧ (SunnyAIController.start_session
        ((SunnyAIController.start_session ({} : Controller)
          "https://meet.google.com/abc-defg-hij" "alice@example.com" true).2)
        "https://meet.google.com/abc-defg-hij" "alice@example.com" true).1 = 2 := by
  have h := c7_amended {} "https://meet.google.com/abc-defg-hij"
    "alice@example.com" true (by intro p hp; simp at hp)
  exact ⟨h.1, h.2.1, h.2.2.2.2.2⟩

/-! ## C8 -/

/-- C8: once the pipeline reaches the email-delivery step with delivery
requested and every earlier fail-hard call succeeded, a failing email
send is absorbed by the inner try-block in `_process_recording` — the
session still finishes with status "completed", never "error". -/
theorem c8_email_failure_failsoft (cfg : FeatureConfig) (b : StageBehaviors)
    (s : SessionRec) (ms : MeetingSession) (f : String)
    (tr : TranscriptionResult) (su : MeetingSummary) (m : MeetingMetrics)
    (pdf : String) (rid mid : Nat) (e : String)
    (haudio : ms.audio_file = some f) (hex : b.audioFileExists = true)
    (htr : b.transcribe = .ok tr) (hsu : b.summarize = .ok su)
    (han : b.analyticsCompute = .ok m) (hpdf : b.pdfRender = .ok pdf)
    (hdb : b.dbSave = .ok rid) (hmem : b.memoryAdd = .ok mid)
    (_hsend : s.send_email = true) (_hmail : b.emailSend = .error e) :
    (SunnyAIController.process_recording cfg b s ms).status = "completed"
    ∧ (SunnyAIController.process_recording cfg b s ms).status ≠ "error" := by
  have h := process_recording_completed cfg b s ms f tr su m pdf rid mid
    haudio hex htr hsu han hpdf hdb hmem
  exact ⟨h, by rw [h]; decide⟩

/-- C8, witness: the theorem applied to the concrete run whose only
failure is the SMTP send. -/
theorem c8_email_failure_failsoft_witness :
    (SunnyAIController.process_recording {} emailFailBehaviors
        procSession endedMs).status = "completed" := by
  exact (c8_email_failure_failsoft {} emailFailBehaviors procSession endedMs
    "recordings/a.wav" okTr okSummary {} "reports/meeting.pdf" 7 0
    "smtp connection refused" rfl rfl rfl rfl rfl rfl rfl rfl rfl rfl).1

/-! ## C9 -/

/-- C9, counterexample: with an initialized controller, an empty registry
and empty storage, POST /meetings/99/stop answers 500 (the ValueError
from `stop_session` is caught by the generic handler), not the
404-equivalent the claim requires, while the status endpoint does answer
404 for the same id. -/
theorem c9_counterexample :
    (Api.stop_meeting (some ({} : Controller)) 99 500).1
      = .httpError 500 "Session 99 not found"
    ∧ (Api.stop_meeting (some ({} : Controller)) 99 500).1
        ≠ .httpError 404 "Session not found"
    ∧ Api.get_meeting_status (some ({} : Controller)) ({} : Storage) 99
        = .httpError 404 "Session not found" := by
  exact ⟨rfl, by decide, rfl⟩

/-- C9, amended: for a session id that exists neither in the registry nor
in storage, the status, transcript, summary and pdf endpoints answer
404, but the stop endpoint answers 500 (its handler has no not-found
branch); before the controller is initialized every one of these
endpoints answers 503. -/
theorem c9_amended (c : Controller) (st : Storage) (sid now : Nat)
    (fileOnDisk : String → Bool)
    (hreg : c.find sid = none) (hdb : st.get_meeting sid = none) :
    Api.get_meeting_status (some c) st sid = .httpError 404 "Session not found"
    ∧ Api.get_transcript (some c) st sid = .httpError 404 "Transcript not available"
    ∧ Api.get_summary (some c) st sid = .httpError 404 "Summary not available"
    ∧ Api.download_pdf (some c) st fileOnDisk sid = .httpError 404 "PDF not available"
    ∧ (Api.stop_meeting (some c) sid now).1
        = .httpError 500 ("Session " ++ toString sid ++ " not found")
    ∧ Api.get_meeting_status none st sid = .httpError 503 "Controller not initialized"
    ∧ (Api.stop_meeting none sid now).1 = .httpError 503 "Controller not initialized"
    ∧ Api.get_transcript none st sid = .httpError 503 "Controller not initialized"
    ∧ Api.get_summary none st sid = .httpError 503 "Controller not initialized"
    ∧ Api.download_pdf none st fileOnDisk sid
        = .httpError 503 "Controller not initialized" := by
  have hstat : SunnyAIController.get_session_status c st sid = none := by
    unfold SunnyAIController.get_session_status
    rw [hreg]
    by_cases h0 : sid = 0
    · simp [h0]
    · simp [h0, hdb]
  have htrans : SunnyAIController.get_transcript c st sid = none := by
    unfold SunnyAIController.get_transcript
    rw [hreg, hdb]
  have hsumm : SunnyAIController.get_summary c st sid = none := by
    unfold SunnyAIController.get_summary
    rw [hreg, hdb]
  have hpdf : SunnyAIController.get_pdf_path c st sid = none := by
    unfold SunnyAIController.get_pdf_path
    rw [hreg, hdb]
  have hstop : SunnyAIController.stop_session c sid now
      = .error ("Session " ++ toString sid ++ " not found") := by
    unfold SunnyAIController.stop_session
    rw [hreg]
  refine ⟨?_, ?_, ?_, ?_, ?_, rfl, rfl, rfl, rfl, rfl⟩
  · simp only [Api.get_meeting_status, hstat]
  · simp only [Api.get_transcript, htrans]
  · simp only [Api.get_summary, hsumm]
  · simp only [Api.download_pdf, hpdf]
  · simp only [Api.stop_meeting, hstop]

/-- C9, witness: the amended theorem applied to an initialized controller
with empty registry and storage at id 99. -/
theorem c9_amended_witness :
    Api.get_meeting_status (some ({} : Controller)) ({} : Storage) 42
      = .httpError 404 "Session not found"
    ∧ (Api.stop_meeting (some ({} : Controller)) 42 500).1
      = .httpError 500 "Session 42 not found"
    ∧ Api.get_transcript none ({} : Storage) 42
      = .httpError 503 "Controller not initialized" := by
  have h := c9_amended {} {} 42 500 (fun _ => false) rfl rfl
  exact ⟨h.1, h.2.2.2.2.1, h.2.2.2.2.2.2.2.1⟩

/-! ## C10 -/

/-- Processing never changes the caller-supplied `send_email` flag. -/
theorem process_recording_send_email (cfg : FeatureConfig) (b : StageBehaviors)
    (s : SessionRec) (ms : MeetingSession) :
    (SunnyAIController.process_recording cfg b s ms).send_email = s.send_email := by
  unfold SunnyAIController.process_recording
  repeat' split
  all_goals
    first
    | rfl
    | (cases hse : s.send_email <;> cases hml : b.emailSend <;> simp [hse, hml])

/-- C10: the registry status snapshot computes `email_sent` as "status is
completed and email was requested at session start" — so after a run in
which the SMTP send raised (and was swallowed), the snapshot still
reports `email_sent = true`; conversely the flag is false exactly when
the session is not completed or email was not requested, regardless of
any delivery outcome. -/
theorem c10_email_sent_flag (sid : Nat) (cfg : FeatureConfig)
    (b : StageBehaviors) (s : SessionRec) (ms : MeetingSession) (f : String)
    (tr : TranscriptionResult) (su : MeetingSummary) (m : MeetingMetrics)
    (pdf : String) (rid mid : Nat) (e : String)
    (haudio : ms.audio_file = some f) (hex : b.audioFileExists = true)
    (htr : b.transcribe = .ok tr) (hsu : b.summarize = .ok su)
    (han : b.analyticsCompute = .ok m) (hpdf : b.pdfRender = .ok pdf)
    (hdb : b.dbSave = .ok rid) (hmem : b.memoryAdd = .ok mid)
    (hsend : s.send_email = true) (_hmail : b.emailSend = .error e) :
    (SunnyAIController.snapshotOf sid
        (SunnyAIController.process_recording cfg b s ms)).email_sent = true
    ∧ (∀ s2 : SessionRec, s2.status ≠ "completed" ∨ s2.send_email = false →
        (SunnyAIController.snapshotOf sid s2).email_sent = false) := by
  constructor
  · have hst := process_recording_completed cfg b s ms f tr su m pdf rid mid
      haudio hex htr hsu han hpdf hdb hmem
    have hsd := process_recording_send_email cfg b s ms
    simp [SunnyAIController.snapshotOf, hst, hsd, hsend]
  · intro s2 h2
    rcases h2 with h2 | h2
    · simp [SunnyAIController.snapshotOf, h2]
    · simp [SunnyAIController.snapshotOf, h2]

/-- C10, witness: the theorem applied to the concrete run whose SMTP send
failed: the snapshot still reports the email as sent, and a stopped
session's snapshot reports it as not sent. -/
theorem c10_email_sent_flag_witness :
    (SunnyAIController.snapshotOf 1 (SunnyAIController.process_recording {}
        emailFailBehaviors procSession endedMs)).email_sent = true
    ∧ (SunnyAIController.snapshotOf 1 stoppedSession).email_sent = false := by
  have h := c10_email_sent_flag 1 {} emailFailBehaviors procSession endedMs
    "recordings/a.wav" okTr okSummary {} "reports/meeting.pdf" 7 0
    "smtp connection refused" rfl rfl rfl rfl rfl rfl rfl rfl rfl rfl
  exact ⟨h.1, h.2 stoppedSession (Or.inl (by decide))⟩

end Sunny
